import Mathlib

/-!
Verification of the taxonomy embedding and classification pipeline
(`src/api` of custom-taxonomy-classifier) against its specification.

The Python sources are shallowly embedded: every function below mirrors one
Python function of the repository (named after it), with external
collaborators (the Vertex embedding model, the generative model, the AI
Platform matching engine, the SQL store) passed in as explicit function or
state parameters.  Fallible Python code is embedded as `Except PyErr`;
Python `None` becomes `Option`; Python floats only flow through the code
unchanged, so embedding vectors are modelled as lists of rationals.
-/

/-- The Python exception kinds raised or caught by the embedded code. -/
inductive PyErr where
  /-- `ValueError` (e.g. an unsupported media file extension). -/
  | valueError (msg : String)
  /-- `KeyError` from a failed `dict[key]` lookup. -/
  | keyError (key : String)
  /-- `ai_platform_client.NotFoundError`. -/
  | notFoundError (msg : String)
  /-- `google.api_core.exceptions.ResourceExhausted` (rate limiting). -/
  | resourceExhausted (msg : String)
  /-- `tenacity.RetryError` wrapping the final attempt's exception. -/
  | retryError (last : PyErr)
  /-- `sqlalchemy.exc.IntegrityError` (uniqueness violation). -/
  | integrityError (msg : String)
  /-- `errors.PostgresClientError` wrapping a database fault. -/
  | postgresClientError (msg : String)
  deriving Repr, DecidableEq

/-- Embedding vectors: lists of floats, modelled as rationals. -/
abbrev Vec := List ℚ

deriving instance DecidableEq for Except

/-- Whether an `Except` result is an exception. -/
def isError {α : Type} : Except PyErr α → Bool
  | .error _ => true
  | .ok _ => false

/-- Whether an `Except` result is a raised `ResourceExhausted`. -/
def isResourceExhaustedErr {α : Type} : Except PyErr α → Bool
  | .error (.resourceExhausted _) => true
  | _ => false

/-! ### Python `dict` built from a list of key/value pairs

`dict(pairs)` keeps keys in first-occurrence order and lets a later pair
overwrite the value of an earlier equal key. -/

/-- One step of `dict` construction: insert `(k, v)`, overwriting in place if
`k` is already present, appending otherwise. -/
def dictInsert {α : Type} (d : List (String × α)) (k : String) (v : α) :
    List (String × α) :=
  if d.any (fun p => p.1 = k) then
    d.map (fun p => if p.1 = k then (k, v) else p)
  else
    d ++ [(k, v)]

/-- Python `dict(pairs)` as an association list with unique keys. -/
def pyDict {α : Type} (pairs : List (String × α)) : List (String × α) :=
  pairs.foldl (fun d p => dictInsert d p.1 p.2) []

/-- Python `d[k]`: the value at `k`, or a raised `KeyError`. -/
def dictGet {α : Type} (d : List (String × α)) (k : String) : Except PyErr α :=
  match d.find? (fun p => p.1 = k) with
  | some p => .ok p.2
  | none => .error (.keyError k)

/-! ### Python string helpers used by `vertex_client.py` -/

/-- Characters of the basename: everything after the last `/`. -/
def basenameChars (cs : List Char) : List Char :=
  cs.foldl (fun acc c => if c = '/' then [] else acc ++ [c]) []

/-- Characters after the last `.` of the list, or `none` if there is no dot. -/
def afterLastDot (cs : List Char) : Option (List Char) :=
  cs.foldl (fun acc c => if c = '.' then some [] else acc.map (· ++ [c])) none

/-- `os.path.splitext(path)[1].replace('.', '')`: the extension of the
basename without its dot.  `splitext` only looks at the basename and treats
its leading dots as part of the root, so a basename like `.bashrc` has no
extension. -/
def fileExtension (path : String) : String :=
  match afterLastDot ((basenameChars path.data).dropWhile (fun c => c = '.')) with
  | some ext => String.mk ext
  | none => ""

/-- Python `str.strip()`: drop whitespace from both ends. -/
def pyStrip (s : String) : String :=
  String.mk
    ((((s.data.dropWhile Char.isWhitespace).reverse).dropWhile
        Char.isWhitespace).reverse)

/-- Python `str.lower()` restricted to ASCII, as used on file extensions. -/
def pyLower (s : String) : String :=
  String.mk (s.data.map Char.toLower)

example : fileExtension "gs://bucket/file.jpg" = "jpg" := by decide
example : fileExtension "notes.jpg" = "jpg" := by decide
example : fileExtension "noext" = "" := by decide

/-! ### `vertex_client.py`: supported media types and file-type lookup -/

/-- `SUPPORTED_VIDEO_TYPES`. -/
def SUPPORTED_VIDEO_TYPES : List String :=
  ["x-flv", "mov", "mpeg", "mpegps", "mpg", "mp4", "webm", "wmv", "3gpp"]

/-- `SUPPORTED_IMAGE_TYPES`. -/
def SUPPORTED_IMAGE_TYPES : List String := ["jpeg", "jpg", "png"]

/-- `SUPPORTED_MEDIA_TYPES`: union of the video and image types. -/
def SUPPORTED_MEDIA_TYPES : List String :=
  SUPPORTED_VIDEO_TYPES ++ SUPPORTED_IMAGE_TYPES

/-- `Prompt.IMAGE`. -/
def Prompt.IMAGE : String := "This image shows:"

/-- `Prompt.VIDEO`. -/
def Prompt.VIDEO : String := "This video shows:"

/-- `VertexClient._get_file_type_from_extension`: `"image"` or `"video"`,
or a raised `ValueError` for an unsupported extension. -/
def get_file_type_from_extension (file_ext : String) : Except PyErr String :=
  if SUPPORTED_IMAGE_TYPES.contains file_ext then .ok "image"
  else if SUPPORTED_VIDEO_TYPES.contains file_ext then .ok "video"
  else .error (.valueError ("Unsupported file type: " ++ file_ext))

/-! ### `vertex_client.py`: batched embeddings -/

/-- `_MAX_BATCH_SIZE`. -/
def MAX_BATCH_SIZE : Nat := 200

/-- `VertexClient._build_input_object_for_embeddings`.  `None` arguments
become `[]`; plain texts are their own output keys, media descriptions are
keyed by their URI (first component). -/
def build_input_object_for_embeddings (text_list : Option (List String))
    (media_descriptions : Option (List (String × String))) :
    List String × List String :=
  let tl := text_list.getD []
  let md := media_descriptions.getD []
  (tl ++ md.map Prod.fst, tl ++ md.map Prod.snd)

/-- The batching `while` loop of `get_embeddings_batch`, embedded with an
explicit fuel so it reduces by kernel computation; `fuel` is always called
with at least the length of `texts`, and each iteration consumes the slice
`texts[batch_start : batch_start + 200]` exactly as
`_get_text_list_batch` does.  The embedding provider
(`TextEmbeddingModel.get_embeddings`) is the function parameter. -/
def processBatchesAux (provider : List String → Except PyErr (List Vec)) :
    Nat → List String → Except PyErr (List Vec)
  | _, [] => .ok []
  | 0, _ :: _ => .ok []
  | fuel + 1, t :: ts => do
    let vs ← provider ((t :: ts).take MAX_BATCH_SIZE)
    let rest ← processBatchesAux provider fuel ((t :: ts).drop MAX_BATCH_SIZE)
    pure (vs ++ rest)

/-- All embedding vectors returned by the provider across the batches, in
batch order. -/
def processBatches (provider : List String → Except PyErr (List Vec))
    (texts : List String) : Except PyErr (List Vec) :=
  processBatchesAux provider texts.length texts

/-- `VertexClient.get_embeddings_batch`: batches the texts, concatenates the
returned vectors and zips them with the output keys into a `dict`.  Note the
source has no request/response length check: `zip` silently truncates to the
shorter of the two lists. -/
def get_embeddings_batch (provider : List String → Except PyErr (List Vec))
    (text_list : Option (List String))
    (media_descriptions : Option (List (String × String))) :
    Except PyErr (List (String × Vec)) := do
  let keysVals := build_input_object_for_embeddings text_list media_descriptions
  let vecs ← processBatches provider keysVals.2
  pure (pyDict (keysVals.1.zip vecs))

example :
    get_embeddings_batch (fun b => .ok (b.map (fun _ => [(1 : ℚ)])))
      (some ["a", "b"]) none = .ok [("a", [1]), ("b", [1])] := by decide

/-! ### `vertex_client.py`: media descriptions with tenacity retry -/

/-- The sleep prescribed by
`tenacity.wait_exponential(min=5, multiplier=2, max=70)` after failing
attempt number `k` (1-based): `multiplier * 2 ^ (k - 1)` clamped into
`[min, max]`. -/
def tenacityWait (k : Nat) : Nat := max 5 (min (2 * 2 ^ (k - 1)) 70)

/-- The retry loop of the `tenacity.retry` decorator on
`_generate_descriptions_from_media`: retry only `ResourceExhausted`, stop
after 10 total attempts, and — because `reraise=False` — raise a
`RetryError` wrapping the last exception when attempts are exhausted.
`attempt k` is the outcome of the k-th call of the decorated body;
`remaining` counts attempts still allowed.  Returns the final outcome, the
number of attempts made, and the list of backoff sleeps. -/
def tenacityRetryAux {α : Type} (attempt : Nat → Except PyErr α) :
    Nat → Nat → Except PyErr α × Nat × List Nat
  | _, 0 => (.error (.retryError (.resourceExhausted "")), 0, [])
  | k, remaining + 1 =>
    match attempt k with
    | .ok a => (.ok a, 1, [])
    | .error e =>
      if isResourceExhaustedErr (α := α) (.error e) then
        if remaining = 0 then (.error (.retryError e), 1, [])
        else
          let r := tenacityRetryAux attempt (k + 1) remaining
          (r.1, r.2.1 + 1, tenacityWait k :: r.2.2)
      else (.error e, 1, [])

/-- `tenacity.retry(stop=stop_after_attempt(10))` applied to `attempt`. -/
def tenacityRetry {α : Type} (attempt : Nat → Except PyErr α) :
    Except PyErr α × Nat × List Nat :=
  tenacityRetryAux attempt 1 10

/-- One attempt of `VertexClient._generate_descriptions_from_media` for one
media path: validate the extension (raising `ValueError` before any network
call), pick the prompt for the file type, then issue the generation request.
`gen path prompt k` is the outcome of the k-th generation request for
`path` (the generative model is external).  A successful response is
stripped and paired with its URI. -/
def generate_descriptions_from_media_attempt
    (gen : String → String → Nat → Except PyErr String) (media_path : String)
    (k : Nat) : Except PyErr (String × String) := do
  let ftype ← get_file_type_from_extension (fileExtension media_path)
  let prompt := if ftype = "image" then Prompt.IMAGE else Prompt.VIDEO
  let text ← gen media_path prompt k
  pure (media_path, pyStrip text)

/-- `VertexClient._generate_descriptions_from_media` with its retry
decorator.  Returns the outcome, the number of generation requests actually
issued for this item (one per attempt, but zero when the extension fails
validation, which happens before the request), and the backoff sleeps. -/
def generate_descriptions_from_media
    (gen : String → String → Nat → Except PyErr String) (media_path : String) :
    Except PyErr (String × String) × Nat × List Nat :=
  let r := tenacityRetry (generate_descriptions_from_media_attempt gen media_path)
  (r.1,
    (if isError (get_file_type_from_extension (fileExtension media_path))
      then 0 else r.2.1),
    r.2.2)

/-- Collecting the results of `ThreadPoolExecutor.map`: every submitted task
runs to completion, and iterating the results re-raises the first
exception in input order. -/
def collectResults {α : Type} : List (Except PyErr α) → Except PyErr (List α)
  | [] => .ok []
  | .error e :: _ => .error e
  | .ok a :: rest => (collectResults rest).map (fun l => a :: l)

/-- `VertexClient.generate_descriptions_from_medias`: dispatch every media
path (the executor eagerly submits all items), then collect in input order.
Also returns the per-item generation-request counts, which the source's
thread pool tallies independently per item. -/
def generate_descriptions_from_medias
    (gen : String → String → Nat → Except PyErr String)
    (media_paths : List String) :
    Except PyErr (List (String × String)) × List Nat :=
  let runs := media_paths.map (fun p => generate_descriptions_from_media gen p)
  (collectResults (runs.map Prod.fst), runs.map (fun r => r.2.1))

example :
    (generate_descriptions_from_medias (fun _ _ _ => .ok " d ")
        ["gs://b/a.jpg"]).1 = .ok [("gs://b/a.jpg", "d")] := by decide

/-! ### `datamodel/`: `TaskStatus`, `Category`, `Taxonomy` -/

/-- `task.TaskStatus`. -/
inductive TaskStatus where
  | STARTED
  | IN_PROGRESS_GETTING_EMBEDDINGS
  | IN_PROGRESS_WRITING_EMBEDDINGS_TO_DB
  | IN_PROGRESS_WRITING_EMBEDDINGS_TO_GCS
  | IN_PROGRESS_CREATING_EMBEDDINGS_INDEX
  | IN_PROGRESS_CREATING_EMBEDDINGS_INDEX_ENDPOINT
  | IN_PROGRESS_DEPLOYING_EMBEDDINGS_INDEX_TO_ENDPOINT
  | SUCCEEDED
  | NOT_FOUND
  | FAILED
  deriving Repr, DecidableEq

/-- `category.Category` (a dataclass with fields `name`, `id`,
`embeddings`). -/
structure Category where
  name : String
  id : Option String := none
  embeddings : Option Vec := none
  deriving Repr, DecidableEq

/-- `taxonomy.Taxonomy`. -/
structure Taxonomy where
  entity_id : Option String := none
  categories : List Category := []
  deriving Repr, DecidableEq

/-- The value of Python's in-place `list.sort(...)`, which always returns
`None` (the sorted list is a side effect on the receiver, not the value of
the expression). -/
def listSortReturnValue (_cats : List Category) : Option Unit :=
  none

/-- `Taxonomy.__eq__`: conjunction of the `isinstance` check (always true
here, both sides being taxonomies), equality of `entity_id`, and equality of
the two `categories.sort(key=..., reverse=False)` *expressions* — which are
both `None`, because `list.sort` sorts in place and returns `None`. -/
def taxonomyEq (a b : Taxonomy) : Bool :=
  a.entity_id == b.entity_id
    && listSortReturnValue a.categories == listSortReturnValue b.categories

/-- `Taxonomy.to_category_embedding_list`: one record per category, with the
category name as `id` and its embeddings. -/
def to_category_embedding_list (t : Taxonomy) : List (String × Option Vec) :=
  t.categories.map (fun c => (c.name, c.embeddings))

/-! ### `taxonomy_service.py`: the pipeline orchestrator

The collaborators' side effects are recorded as an explicit trace of
events; each event is one observable outbound call of the service. -/

/-- An observable collaborator call made during a pipeline run. -/
inductive Event where
  /-- `postgres_client.update_task(task_id, status)`. -/
  | updateTask (task_id : String) (status : TaskStatus)
  /-- `storage_client.write_taxonomy_embeddings`, recorded with the corpus
  records `to_category_embedding_list` produces for it. -/
  | writeCorpus (records : List (String × Option Vec))
  /-- `ai_platform_client.delete_all_embedding_index_endpoints()`. -/
  | teardownEndpoints
  /-- `ai_platform_client.create_embeddings_index()`. -/
  | createIndex
  /-- `ai_platform_client.create_embeddings_index_endpoint()`. -/
  | createEndpoint
  /-- `ai_platform_client.deploy_embedding_index_to_endpoint(...)`. -/
  | deployIndex
  deriving Repr, DecidableEq, BEq

/-- `TaxonomyService._add_embeddings_to_taxonomy`: mark
`IN_PROGRESS_GETTING_EMBEDDINGS`, embed all category names in one
`get_embeddings_batch` call, then set each category's embeddings from the
returned dict (a missing name would raise `KeyError`).  Returns the updated
taxonomy and the trace of events. -/
def add_embeddings_to_taxonomy
    (provider : List String → Except PyErr (List Vec)) (task_id : String)
    (taxonomy : Taxonomy) : Except PyErr (Taxonomy × List Event) := do
  let trace := [Event.updateTask task_id .IN_PROGRESS_GETTING_EMBEDDINGS]
  let category_names := taxonomy.categories.map (fun c => c.name)
  let category_embeddings ← get_embeddings_batch provider (some category_names) none
  let cats ← taxonomy.categories.mapM (fun c => do
    let v ← dictGet category_embeddings c.name
    pure { c with embeddings := some v })
  pure ({ taxonomy with categories := cats }, trace)

/-- `TaxonomyService.create_taxonomy_embeddings_index_endpoint`, with the
spreadsheet collaborator already resolved to the list of category-name cells
`values` (header stripped), exactly as `_get_taxonomy_from_spreadsheet`
consumes them: category `i` gets `id = str(i)` and `name = values[i]`.
Produces the trace of collaborator calls in program order. -/
def create_taxonomy_embeddings_index_endpoint
    (provider : List String → Except PyErr (List Vec)) (task_id : String)
    (values : List String) : Except PyErr (List Event) := do
  let categories := values.enum.map
    (fun p => { name := p.2, id := some (toString p.1) : Category })
  let taxonomy : Taxonomy := { entity_id := some task_id, categories := categories }
  let withEmb ← add_embeddings_to_taxonomy provider task_id taxonomy
  pure (withEmb.2 ++
    [Event.updateTask task_id .IN_PROGRESS_WRITING_EMBEDDINGS_TO_GCS,
     Event.writeCorpus (to_category_embedding_list withEmb.1),
     Event.updateTask task_id .IN_PROGRESS_CREATING_EMBEDDINGS_INDEX,
     Event.teardownEndpoints,
     Event.createIndex,
     Event.updateTask task_id .IN_PROGRESS_CREATING_EMBEDDINGS_INDEX_ENDPOINT,
     Event.createEndpoint,
     Event.updateTask task_id .IN_PROGRESS_DEPLOYING_EMBEDDINGS_INDEX_TO_ENDPOINT,
     Event.deployIndex,
     Event.updateTask task_id .SUCCEEDED])

/-- The statuses of the `update_task` events of a trace, in order. -/
def statusUpdates (trace : List Event) : List TaskStatus :=
  trace.filterMap (fun e =>
    match e with
    | .updateTask _ s => some s
    | _ => none)

/-- The corpus writes of a trace, in order, each with its records. -/
def corpusWrites (trace : List Event) : List (List (String × Option Vec)) :=
  trace.filterMap (fun e =>
    match e with
    | .writeCorpus records => some records
    | _ => none)

/-! ### `postgres_client.py`: the task state tracker -/

/-- One row of the `tasks` table. -/
structure TaskRow where
  task_id : String
  status : TaskStatus
  time_created : Nat
  time_updated : Nat
  deriving Repr, DecidableEq

/-- The table state: its rows in insertion order. -/
abbrev DbState := List TaskRow

/-- An executed-and-committed statement against the store. -/
inductive DbEvent where
  /-- A committed `AddTask` insert. -/
  | insertRow (task_id : String) (status : TaskStatus)
  /-- A committed `UpdateTaskStatus` update. -/
  | updateRow (task_id : String) (status : TaskStatus)
  deriving Repr, DecidableEq

/-- `PostgresClient.update_task`: set `status` and bump `time_updated` on the
rows matching `task_id` (the primary key makes that at most one), with no
forward-only validation. -/
def update_task (now : Nat) (st : DbState) (task_id : String)
    (status : TaskStatus) : DbState × List DbEvent :=
  (st.map (fun r =>
      if r.task_id = task_id then
        { r with status := status, time_updated := now }
      else r),
    [DbEvent.updateRow task_id status])

/-- `PostgresClient.add_task`: attempt to insert a fresh `STARTED` row; the
primary key on `task_id` makes the insert fail with `IntegrityError` when a
row already exists, in which case the client falls back to exactly one
`update_task(task_id, STARTED)` call. -/
def add_task (now : Nat) (st : DbState) (task_id : String) :
    DbState × List DbEvent :=
  if st.any (fun r => r.task_id = task_id) then
    update_task now st task_id .STARTED
  else
    (st ++ [{ task_id := task_id, status := .STARTED, time_created := now,
              time_updated := now }],
      [DbEvent.insertRow task_id .STARTED])

/-- The number of rows of the table holding `task_id`. -/
def countRows (st : DbState) (task_id : String) : Nat :=
  st.countP (fun r => r.task_id = task_id)

/-! ### `ai_platform_client.py`: endpoint resolution and neighbor queries -/

/-- `_DEFAULT_INDEX_DEPLOYED_DISPLAY_NAME`. -/
def DEPLOYED_DISPLAY_NAME : String := "embedding_index_deployed"

/-- A deployed index attached to a matching-engine endpoint. -/
structure DeployedIndex where
  id : String
  displayName : String
  createTime : Nat
  deriving Repr, DecidableEq

/-- A matching-engine index endpoint with its deployed indexes. -/
structure Endpoint where
  name : String
  displayName : String
  deployedIndexes : List DeployedIndex
  deriving Repr, DecidableEq

/-- The ordering used by
`sorted(deployed_indexes, key=lambda c: c.create_time, reverse=True)`:
later creation times first; `sorted` is stable, and Mathlib's
`insertionSort` is its stable realization. -/
def createdDesc (a b : DeployedIndex) : Prop :=
  b.createTime ≤ a.createTime

instance : DecidableRel createdDesc := fun a b =>
  inferInstanceAs (Decidable (b.createTime ≤ a.createTime))

instance : IsTotal DeployedIndex createdDesc :=
  ⟨fun a b => Nat.le_total b.createTime a.createTime⟩

instance : IsTrans DeployedIndex createdDesc :=
  ⟨fun _ _ _ hab hbc => Nat.le_trans hbc hab⟩

/-- `AiPlatformClient._getembedding_index_endpoint_deployed_index_id`: `None`
when no endpoint was resolved; otherwise the id of the first deployment
bearing the expected display name in the list of deployments sorted by
creation time descending. -/
def get_deployed_index_id (endpoint : Option Endpoint)
    (displayName : String := DEPLOYED_DISPLAY_NAME) : Option String :=
  match endpoint with
  | none => none
  | some ep =>
    ((ep.deployedIndexes.insertionSort createdDesc).find?
        (fun d => d.displayName == displayName)).map (fun d => d.id)

/-- A single neighbor of the matching engine's response. -/
structure Neighbor where
  id : String
  distance : ℚ
  deriving Repr, DecidableEq

/-- `AiPlatformClient.find_neighbors_for_vectors`: raise `NotFoundError` when
no endpoint was resolved, raise `NotFoundError` (with a different message)
when no matching deployment was resolved at that endpoint, and otherwise
query the endpoint's `match` primitive (`matchFn`, external). -/
def find_neighbors_for_vectors (endpoint : Option Endpoint)
    (deployed_id : Option String)
    (matchFn : String → List Vec → Nat → List (List Neighbor))
    (vectors : List Vec) (num_neighbors : Nat := 10) :
    Except PyErr (List (List Neighbor)) :=
  match endpoint with
  | none => .error (.notFoundError "AiPlatform Client: No index endpoint found.")
  | some _ =>
    match deployed_id with
    | none =>
      .error (.notFoundError
        "AiPlatform Client: No index deployed at the chosen endpoint.")
    | some did => .ok (matchFn did vectors num_neighbors)

/-! ### `classify_service.py`: the classification resolver -/

/-- `classify_service.ClassifyResult` (a dataclass whose fields default to
`None`). -/
structure ClassifyResult where
  text : Option String := none
  media_uri : Option String := none
  media_description : Option String := none
  categories : Option (List (String × ℚ)) := none
  embedding : Option Vec := none
  deriving Repr, DecidableEq

/-- `classify_service._has_valid_extension`: the lower-cased extension is in
the supported media allow-list. -/
def has_valid_extension (path : String) : Bool :=
  SUPPORTED_MEDIA_TYPES.contains (pyLower (fileExtension path))

/-- A Python `str | list[str]` argument value. -/
inductive StrOrStrList where
  | str (s : String)
  | list (l : List String)
  deriving Repr, DecidableEq

/-- `[x] if isinstance(x, str) else x`: normalize a scalar argument to a
singleton list, keep a list or `None` as is. -/
def pyNormalize : Option StrOrStrList → Option (List String)
  | some (.str s) => some [s]
  | some (.list l) => some l
  | none => none

/-- Python truthiness of an optional list: `None` and `[]` are falsy. -/
def truthyList : Option (List String) → Bool
  | some (_ :: _) => true
  | _ => false

/-- The result-building loop of
`ClassifyService._find_nearest_neighbors_for_text`: walk
`zip(text_list, results)` in order; a key with a valid media extension is
tagged as media and its description looked up (``KeyError`` when absent),
any other key is tagged as text; embeddings are attached only on request. -/
def buildClassifyResults (mdict : List (String × String))
    (text_embeddings : List (String × Vec)) (embeddings : Bool) :
    List (String × List Neighbor) → Except PyErr (List ClassifyResult)
  | [] => .ok []
  | (text, result) :: rest => do
    let similar := result.map (fun nb => (nb.id, nb.distance))
    let r ←
      if has_valid_extension text then do
        let desc ← dictGet mdict text
        let emb ← if embeddings then
            (dictGet text_embeddings text).map (fun v => some v)
          else pure none
        pure { media_uri := some text, media_description := some desc,
               categories := some similar, embedding := emb : ClassifyResult }
      else do
        let emb ← if embeddings then
            (dictGet text_embeddings text).map (fun v => some v)
          else pure none
        pure { text := some text, categories := some similar,
               embedding := emb : ClassifyResult }
    let rs ← buildClassifyResults mdict text_embeddings embeddings rest
    pure (r :: rs)

/-- `ClassifyService._find_nearest_neighbors_for_text`: build the media
description dict (empty when `media_descriptions` is `None` or empty), query
the index with the embedding dict's values in its iteration order, then pair
each key with its result list. -/
def find_nearest_neighbors_for_text (endpoint : Option Endpoint)
    (deployed_id : Option String)
    (matchFn : String → List Vec → Nat → List (List Neighbor))
    (text_embeddings : List (String × Vec))
    (media_descriptions : Option (List (String × String)))
    (embeddings : Bool) : Except PyErr (List ClassifyResult) := do
  let mdict := match media_descriptions with
    | some (p :: rest) => pyDict (p :: rest)
    | _ => []
  let vectors := text_embeddings.map Prod.snd
  let text_list := text_embeddings.map Prod.fst
  let results ← find_neighbors_for_vectors endpoint deployed_id matchFn vectors
  buildClassifyResults mdict text_embeddings embeddings
    (text_list.zip results)

/-- `ClassifyService.classify`: normalize the arguments, validate all media
extensions up front, return `[]` for empty input without contacting any
backend, describe media, embed all texts and media descriptions together,
and resolve nearest neighbors. -/
def classify (gen : String → String → Nat → Except PyErr String)
    (provider : List String → Except PyErr (List Vec))
    (endpoint : Option Endpoint) (deployed_id : Option String)
    (matchFn : String → List Vec → Nat → List (List Neighbor))
    (text media_uri : Option StrOrStrList) (embeddings : Bool := false) :
    Except PyErr (List ClassifyResult) := do
  let text_list := pyNormalize text
  let media_uris := pyNormalize media_uri
  if truthyList media_uris
      && !((media_uris.getD []).all (fun u => has_valid_extension u)) then
    .error (.valueError "Request contains an invalid media extensions.")
  else if !truthyList text_list && !truthyList media_uris then
    .ok []
  else do
    let media_descriptions ←
      if truthyList media_uris then
        (generate_descriptions_from_medias gen (media_uris.getD [])).1.map
          (fun l => some l)
      else pure none
    let text_embeddings ← get_embeddings_batch provider text_list
      media_descriptions
    find_nearest_neighbors_for_text endpoint deployed_id matchFn
      text_embeddings media_descriptions embeddings

/-! ### Helper lemmas about the Python `dict` embedding -/

theorem pyDict_foldl_eq_append {α : Type} :
    ∀ (pairs acc : List (String × α)),
      ((acc ++ pairs).map Prod.fst).Nodup →
      pairs.foldl (fun d p => dictInsert d p.1 p.2) acc = acc ++ pairs := by
  intro pairs
  induction pairs with
  | nil => intro acc _; simp
  | cons p t ih =>
    intro acc h
    have hnotin : p.1 ∉ acc.map Prod.fst := by
      intro hmem
      rw [List.map_append] at h
      have hdisj := List.disjoint_of_nodup_append h
      exact hdisj hmem (by simp)
    have hany : acc.any (fun q => q.1 = p.1) = false := by
      rw [List.any_eq_false]
      intro q hq
      simp only [decide_eq_true_eq]
      intro hq1
      exact hnotin (hq1 ▸ List.mem_map_of_mem Prod.fst hq)
    have hstep : dictInsert acc p.1 p.2 = acc ++ [p] := by
      simp [dictInsert, hany]
    have hrearr : (acc ++ p :: t) = ((acc ++ [p]) ++ t) := by simp
    calc (p :: t).foldl (fun d q => dictInsert d q.1 q.2) acc
        = t.foldl (fun d q => dictInsert d q.1 q.2) (acc ++ [p]) := by
          simp [List.foldl_cons, hstep]
      _ = (acc ++ [p]) ++ t := ih (acc ++ [p]) (by rw [← hrearr]; exact h)
      _ = acc ++ p :: t := by simp

/-- `dict(pairs)` is `pairs` itself when the keys are already unique. -/
theorem pyDict_eq_self {α : Type} (pairs : List (String × α))
    (h : (pairs.map Prod.fst).Nodup) : pyDict pairs = pairs := by
  simpa using pyDict_foldl_eq_append pairs [] (by simpa using h)

/-- The first components of `l1.zip l2` are the first `l2.length` entries of
`l1`. -/
theorem map_fst_zip_eq_take {α β : Type} :
    ∀ (l1 : List α) (l2 : List β),
      (l1.zip l2).map Prod.fst = l1.take l2.length := by
  intro l1
  induction l1 with
  | nil => intro l2; simp
  | cons a t ih =>
    intro l2
    cases l2 with
    | nil => simp
    | cons b t2 => simp [ih]

/-- A key that appears among a dict's keys can be looked up. -/
theorem dictGet_ok_of_mem {α : Type} :
    ∀ (d : List (String × α)) (k : String),
      k ∈ d.map Prod.fst → ∃ v, dictGet d k = .ok v := by
  intro d
  induction d with
  | nil => intro k h; simp at h
  | cons p t ih =>
    intro k h
    by_cases hk : p.1 = k
    · exact ⟨p.2, by simp [dictGet, List.find?_cons, hk]⟩
    · have hmem : k ∈ t.map Prod.fst := by
        rw [List.map_cons] at h
        rcases List.mem_cons.mp h with h1 | h1
        · exact absurd h1.symm hk
        · exact h1
      obtain ⟨v, hv⟩ := ih k hmem
      refine ⟨v, ?_⟩
      unfold dictGet at hv ⊢
      rw [List.find?_cons_of_neg]
      · exact hv
      · simp [hk]

/-! ### Helper lemmas about the batching loop -/

/-- Both components of `_build_input_object_for_embeddings` have the same
length (one key per text value). -/
theorem build_input_lengths (text_list : Option (List String))
    (media_descriptions : Option (List (String × String))) :
    (build_input_object_for_embeddings text_list media_descriptions).1.length
      = (build_input_object_for_embeddings text_list media_descriptions).2.length := by
  simp [build_input_object_for_embeddings]

/-- When the provider answers every batch with one vector per requested
text, the loop succeeds and yields one vector per text overall. -/
theorem processBatchesAux_ok_length
    (provider : List String → Except PyErr (List Vec))
    (hp : ∀ b, ∃ vs, provider b = .ok vs ∧ vs.length = b.length) :
    ∀ (fuel : Nat) (texts : List String), texts.length ≤ fuel →
      ∃ vs, processBatchesAux provider fuel texts = .ok vs
        ∧ vs.length = texts.length := by
  intro fuel
  induction fuel with
  | zero =>
    intro texts h
    cases texts with
    | nil => exact ⟨[], rfl, rfl⟩
    | cons t ts => simp at h
  | succ f ih =>
    intro texts h
    cases texts with
    | nil => exact ⟨[], rfl, rfl⟩
    | cons t ts =>
      obtain ⟨vs, hok, hlen⟩ := hp ((t :: ts).take MAX_BATCH_SIZE)
      have hle : ((t :: ts).drop MAX_BATCH_SIZE).length ≤ f := by
        simp only [List.length_drop, List.length_cons, MAX_BATCH_SIZE] at h ⊢
        omega
      obtain ⟨rest, hrok, hrlen⟩ := ih _ hle
      refine ⟨vs ++ rest, ?_, ?_⟩
      · simp only [processBatchesAux, hok, hrok]
        rfl
      · have h1 : vs.length = min MAX_BATCH_SIZE (t :: ts).length := by
          rw [hlen, List.length_take]
        have h2 : rest.length = (t :: ts).length - MAX_BATCH_SIZE := by
          rw [hrlen, List.length_drop]
        simp only [List.length_append]
        omega

/-- When the provider merely succeeds on every batch (with vectors of any
number), the loop still succeeds: there is no length check anywhere. -/
theorem processBatchesAux_ok (provider : List String → Except PyErr (List Vec))
    (hp : ∀ b, ∃ vs, provider b = .ok vs) :
    ∀ (fuel : Nat) (texts : List String),
      ∃ vs, processBatchesAux provider fuel texts = .ok vs := by
  intro fuel
  induction fuel with
  | zero =>
    intro texts
    cases texts with
    | nil => exact ⟨[], rfl⟩
    | cons t ts => exact ⟨[], rfl⟩
  | succ f ih =>
    intro texts
    cases texts with
    | nil => exact ⟨[], rfl⟩
    | cons t ts =>
      obtain ⟨vs, hok⟩ := hp ((t :: ts).take MAX_BATCH_SIZE)
      obtain ⟨rest, hrok⟩ := ih ((t :: ts).drop MAX_BATCH_SIZE)
      exact ⟨vs ++ rest, by simp only [processBatchesAux, hok, hrok]; rfl⟩

/-- A nonempty input of at most one batch makes exactly one provider call,
whose vectors are returned unchanged. -/
theorem processBatchesAux_single
    (provider : List String → Except PyErr (List Vec))
    (t : String) (ts : List String) (vs : List Vec)
    (h200 : (t :: ts).length ≤ MAX_BATCH_SIZE)
    (hok : provider (t :: ts) = .ok vs) :
    processBatchesAux provider (t :: ts).length (t :: ts) = .ok vs := by
  have htake : (t :: ts).take MAX_BATCH_SIZE = t :: ts :=
    List.take_of_length_le h200
  have hdrop : (t :: ts).drop MAX_BATCH_SIZE = [] :=
    List.drop_eq_nil_of_le h200
  have hfuel : ∃ f, (t :: ts).length = f + 1 := ⟨ts.length, by simp⟩
  obtain ⟨f, hf⟩ := hfuel
  rw [hf]
  have hrest : processBatchesAux provider f [] = .ok [] := by
    cases f <;> rfl
  simp only [processBatchesAux, htake, hdrop, hok, hrest]
  show Except.ok (vs ++ []) = Except.ok vs
  simp

/-- Unfolding `get_embeddings_batch` once its batching loop's outcome is
known. -/
theorem get_embeddings_batch_eq
    (provider : List String → Except PyErr (List Vec))
    (text_list : Option (List String))
    (media_descriptions : Option (List (String × String))) (vecs : List Vec)
    (hok : processBatches provider
        (build_input_object_for_embeddings text_list media_descriptions).2
      = .ok vecs) :
    get_embeddings_batch provider text_list media_descriptions
      = .ok (pyDict
          ((build_input_object_for_embeddings text_list media_descriptions).1.zip
            vecs)) := by
  show (processBatches provider
        (build_input_object_for_embeddings text_list media_descriptions).2
      >>= fun vecs =>
        pure (pyDict
          ((build_input_object_for_embeddings text_list media_descriptions).1.zip
            vecs))) = _
  rw [hok]
  rfl

/-- Under a provider answering each batch with one vector per text,
`get_embeddings_batch` succeeds with exactly one vector per input key. -/
theorem get_embeddings_batch_ok
    (provider : List String → Except PyErr (List Vec))
    (text_list : Option (List String))
    (media_descriptions : Option (List (String × String)))
    (hp : ∀ b, ∃ vs, provider b = .ok vs ∧ vs.length = b.length) :
    ∃ vecs,
      processBatches provider
          (build_input_object_for_embeddings text_list media_descriptions).2
        = .ok vecs
      ∧ vecs.length
          = (build_input_object_for_embeddings text_list media_descriptions).2.length
      ∧ get_embeddings_batch provider text_list media_descriptions
          = .ok (pyDict
              ((build_input_object_for_embeddings text_list
                  media_descriptions).1.zip vecs)) := by
  obtain ⟨vecs, hok, hlen⟩ :=
    processBatchesAux_ok_length provider hp
      (build_input_object_for_embeddings text_list media_descriptions).2.length
      (build_input_object_for_embeddings text_list media_descriptions).2 le_rfl
  exact ⟨vecs, hok, hlen,
    get_embeddings_batch_eq provider text_list media_descriptions vecs hok⟩

/-- **C1**: for every non-empty list of unique input keys, assuming the
embedding provider returns one vector per requested text in request order,
`get_embeddings_batch` returns a map whose key set equals exactly the input
key set; and for every input of at most 200 items (a single batch) the
result pairs the i-th input key with the i-th vector of the provider's one
response (`keys.zip vs` is exactly that positional pairing). -/
theorem get_embeddings_batch_keys_exact_and_single_batch_order
    (provider : List String → Except PyErr (List Vec))
    (text_list : Option (List String))
    (media_descriptions : Option (List (String × String)))
    (hp : ∀ b, ∃ vs, provider b = .ok vs ∧ vs.length = b.length)
    (hne : (build_input_object_for_embeddings text_list media_descriptions).1 ≠ [])
    (hnd : (build_input_object_for_embeddings text_list media_descriptions).1.Nodup) :
    ∃ m, get_embeddings_batch provider text_list media_descriptions = .ok m
      ∧ (∀ k, k ∈ m.map Prod.fst ↔
          k ∈ (build_input_object_for_embeddings text_list media_descriptions).1)
      ∧ (∀ vs,
          (build_input_object_for_embeddings text_list
              media_descriptions).2.length ≤ MAX_BATCH_SIZE →
          provider
              (build_input_object_for_embeddings text_list media_descriptions).2
            = .ok vs →
          m = (build_input_object_for_embeddings text_list
              media_descriptions).1.zip vs) := by
  obtain ⟨vecs, hpb, hlen, hgeb⟩ :=
    get_embeddings_batch_ok provider text_list media_descriptions hp
  have hkeylen := build_input_lengths text_list media_descriptions
  have hlen2 : vecs.length
      = (build_input_object_for_embeddings text_list media_descriptions).1.length := by
    rw [hlen, hkeylen]
  have hfst : (((build_input_object_for_embeddings text_list
      media_descriptions).1.zip vecs)).map Prod.fst
      = (build_input_object_for_embeddings text_list media_descriptions).1 := by
    rw [map_fst_zip_eq_take, hlen2, List.take_length]
  have hdict : pyDict ((build_input_object_for_embeddings text_list
      media_descriptions).1.zip vecs)
      = (build_input_object_for_embeddings text_list media_descriptions).1.zip
          vecs :=
    pyDict_eq_self _ (by rw [hfst]; exact hnd)
  refine ⟨(build_input_object_for_embeddings text_list
      media_descriptions).1.zip vecs, by rw [hgeb, hdict], ?_, ?_⟩
  · intro k
    rw [hfst]
  · intro vs h200 hvs
    have hone : processBatches provider
        (build_input_object_for_embeddings text_list media_descriptions).2
        = .ok vs := by
      cases hkv2 : (build_input_object_for_embeddings text_list
          media_descriptions).2 with
      | nil =>
        exfalso
        apply hne
        apply List.eq_nil_of_length_eq_zero
        rw [hkeylen, hkv2]
        rfl
      | cons t ts =>
        rw [processBatches]
        exact processBatchesAux_single provider t ts vs (hkv2 ▸ h200)
          (hkv2 ▸ hvs)
    rw [hone] at hpb
    have : vs = vecs := by
      injection hpb
    rw [this]

/-- A stub embedding provider answering one fixed vector per requested
text. -/
def constOneProvider : List String → Except PyErr (List Vec) :=
  fun b => .ok (b.map (fun _ => [1]))

/-- Witness for C1 at the concrete input `["a", "b"]` with a provider that
answers one vector per text. -/
theorem get_embeddings_batch_keys_exact_witness :
    ∃ m, get_embeddings_batch constOneProvider
        (some ["a", "b"]) none = .ok m
      ∧ (∀ k, k ∈ m.map Prod.fst ↔
          k ∈ (build_input_object_for_embeddings (some ["a", "b"]) none).1)
      ∧ (∀ vs,
          (build_input_object_for_embeddings (some ["a", "b"]) none).2.length
              ≤ MAX_BATCH_SIZE →
          constOneProvider
              (build_input_object_for_embeddings (some ["a", "b"]) none).2
            = .ok vs →
          m = (build_input_object_for_embeddings (some ["a", "b"])
              none).1.zip vs) :=
  get_embeddings_batch_keys_exact_and_single_batch_order
    constOneProvider (some ["a", "b"]) none
    (fun b => ⟨b.map (fun _ => [1]), rfl, by simp⟩) (by decide) (by decide)

/-- **C3** counterexample: a provider that returns a single vector for a
two-text request is a request/response length mismatch, yet
`get_embeddings_batch` returns a result map (silently dropping the key
`"b"`) instead of failing with an error. -/
theorem get_embeddings_batch_mismatch_counterexample :
    get_embeddings_batch (fun _ => .ok [[(1 : ℚ)]]) (some ["a", "b"]) none
      = .ok [("a", [1])] := by decide

/-- **C3 (amended)**: a total number of returned vectors different from the
number of requested texts is silently ignored: as long as the provider's
calls succeed, `get_embeddings_batch` returns a map that pairs input keys
with returned vectors positionally up to the shorter of the two lengths,
dropping the surplus without any error. -/
theorem get_embeddings_batch_mismatch_truncates
    (provider : List String → Except PyErr (List Vec))
    (text_list : Option (List String))
    (media_descriptions : Option (List (String × String)))
    (hp : ∀ b, ∃ vs, provider b = .ok vs)
    (hnd : (build_input_object_for_embeddings text_list media_descriptions).1.Nodup) :
    ∃ vecs m,
      processBatches provider
          (build_input_object_for_embeddings text_list media_descriptions).2
        = .ok vecs
      ∧ get_embeddings_batch provider text_list media_descriptions = .ok m
      ∧ m = (build_input_object_for_embeddings text_list
          media_descriptions).1.zip vecs
      ∧ m.length = min
          (build_input_object_for_embeddings text_list
            media_descriptions).1.length vecs.length := by
  obtain ⟨vecs, hok⟩ :=
    processBatchesAux_ok provider hp
      (build_input_object_for_embeddings text_list media_descriptions).2.length
      (build_input_object_for_embeddings text_list media_descriptions).2
  have hfst : (((build_input_object_for_embeddings text_list
      media_descriptions).1.zip vecs)).map Prod.fst
      = (build_input_object_for_embeddings text_list
          media_descriptions).1.take vecs.length :=
    map_fst_zip_eq_take _ _
  have hdict : pyDict ((build_input_object_for_embeddings text_list
      media_descriptions).1.zip vecs)
      = (build_input_object_for_embeddings text_list media_descriptions).1.zip
          vecs := by
    apply pyDict_eq_self
    rw [hfst]
    exact hnd.sublist (List.take_sublist _ _)
  refine ⟨vecs,
    (build_input_object_for_embeddings text_list media_descriptions).1.zip vecs,
    hok, ?_, rfl, List.length_zip _ _⟩
  rw [get_embeddings_batch_eq provider text_list media_descriptions vecs hok,
    hdict]

/-- Witness for the amended C3 at a concrete mismatching provider. -/
theorem get_embeddings_batch_mismatch_truncates_witness :
    ∃ vecs m,
      processBatches (fun _ => .ok [[(1 : ℚ)]])
          (build_input_object_for_embeddings (some ["a", "b"]) none).2
        = .ok vecs
      ∧ get_embeddings_batch (fun _ => .ok [[(1 : ℚ)]]) (some ["a", "b"]) none
          = .ok m
      ∧ m = (build_input_object_for_embeddings (some ["a", "b"])
          none).1.zip vecs
      ∧ m.length = min
          (build_input_object_for_embeddings (some ["a", "b"])
            none).1.length vecs.length :=
  get_embeddings_batch_mismatch_truncates (fun _ => .ok [[(1 : ℚ)]])
    (some ["a", "b"]) none (fun _ => ⟨[[1]], rfl⟩) (by decide)

/-! ### C4: `Taxonomy.__eq__` -/

/-- **C4** (code bug evaluation): `Taxonomy.__eq__` compares the *return
values* of `list.sort(...)`, and `list.sort` returns `None`, so the
categories comparison is always `None == None` and equality degenerates to
`entity_id` equality: two taxonomies with the same `entity_id` but visibly
different category (name, embedding) sets compare equal, contradicting the
specified set-of-pairs equality. -/
theorem taxonomyEq_ignores_categories :
    taxonomyEq
        { entity_id := some "task1",
          categories := [{ name := "a", embeddings := some [1] }] }
        { entity_id := some "task1",
          categories := [{ name := "b", embeddings := some [2] }] } = true
      ∧ ([{ name := "a", embeddings := some [1] : Category }]
          ≠ [{ name := "b", embeddings := some [2] : Category }]) := by
  constructor
  · decide
  · decide

/-! ### C6: `add_task` idempotence -/

/-- `update_task` does not change which `task_id`s the rows carry. -/
theorem update_task_state_ids (now : Nat) (st : DbState) (task_id : String)
    (status : TaskStatus) :
    ((update_task now st task_id status).1).map (fun r => r.task_id)
      = st.map (fun r => r.task_id) := by
  simp only [update_task, List.map_map]
  apply List.map_congr_left
  intro r _
  by_cases h : r.task_id = task_id <;> simp [h]

/-- `countRows` only looks at the `task_id` column. -/
theorem countRows_eq_ids (st : DbState) (task_id : String) :
    countRows st task_id
      = (st.map (fun r => r.task_id)).countP (fun x => x = task_id) := by
  unfold countRows
  rw [List.countP_map]
  rfl

/-- Row presence only looks at the `task_id` column. -/
theorem anyRows_eq_ids (st : DbState) (task_id : String) :
    st.any (fun r => r.task_id = task_id)
      = (st.map (fun r => r.task_id)).any (fun x => x = task_id) := by
  induction st with
  | nil => rfl
  | cons r t ih => simp only [List.map_cons, List.any_cons, ih]

/-- **C6**: `add_task` inserts a fresh `STARTED` row, and on the uniqueness
violation of a second call it performs exactly one
`update_task(task_id, STARTED)` instead: the second call's statement list is
exactly one update, the number of rows for the id does not grow, and after
the first call there is at least one row for the id. -/
theorem add_task_second_call_is_single_update (st : DbState)
    (task_id : String) (n1 n2 : Nat) :
    (add_task n2 (add_task n1 st task_id).1 task_id).2
        = [DbEvent.updateRow task_id .STARTED]
      ∧ countRows (add_task n2 (add_task n1 st task_id).1 task_id).1 task_id
          = countRows (add_task n1 st task_id).1 task_id
      ∧ 1 ≤ countRows (add_task n1 st task_id).1 task_id := by
  have hany1 : ((add_task n1 st task_id).1).any
      (fun r => r.task_id = task_id) = true := by
    by_cases h : st.any (fun r => r.task_id = task_id) = true
    · rw [add_task, if_pos h, anyRows_eq_ids, update_task_state_ids,
        ← anyRows_eq_ids]
      exact h
    · rw [add_task, if_neg h]
      simp
  refine ⟨?_, ?_, ?_⟩
  · rw [add_task, if_pos hany1]
    rfl
  · rw [add_task, if_pos hany1, countRows_eq_ids,
      update_task_state_ids, ← countRows_eq_ids]
  · rw [List.any_eq_true] at hany1
    obtain ⟨r, hr, hrid⟩ := hany1
    unfold countRows
    exact List.countP_pos_iff.mpr ⟨r, hr, hrid⟩

/-! ### C2: the end-to-end pipeline trace -/

/-- The float 0.1 as a rational, written in reduced form so that equality
on it computes by kernel reduction. -/
def rat01 : ℚ := ⟨1, 10, by norm_num, Nat.coprime_one_left 10⟩

/-- The float 0.2 as a rational (2/10 in lowest terms). -/
def rat02 : ℚ := ⟨1, 5, by norm_num, Nat.coprime_one_left 5⟩

/-- The stub embedder of the end-to-end scenario: `[0.1]` for `"cat1"`,
`[0.2]` for every other category name. -/
def catStubProvider : List String → Except PyErr (List Vec) :=
  fun b => .ok (b.map (fun t => if t = "cat1" then [rat01] else [rat02]))

/-- The collaborator-call trace of the two-category pipeline run. -/
def twoCategoryTrace : List Event :=
  [Event.updateTask "task1" .IN_PROGRESS_GETTING_EMBEDDINGS,
   Event.updateTask "task1" .IN_PROGRESS_WRITING_EMBEDDINGS_TO_GCS,
   Event.writeCorpus [("cat1", some [rat01]), ("cat2", some [rat02])],
   Event.updateTask "task1" .IN_PROGRESS_CREATING_EMBEDDINGS_INDEX,
   Event.teardownEndpoints,
   Event.createIndex,
   Event.updateTask "task1" .IN_PROGRESS_CREATING_EMBEDDINGS_INDEX_ENDPOINT,
   Event.createEndpoint,
   Event.updateTask "task1" .IN_PROGRESS_DEPLOYING_EMBEDDINGS_INDEX_TO_ENDPOINT,
   Event.deployIndex,
   Event.updateTask "task1" .SUCCEEDED]

/-- **C2**: running the pipeline on the taxonomy `["cat1", "cat2"]` with the
stub embedder performs exactly one corpus write whose records are
`[(cat1, [0.1]), (cat2, [0.2])]`, exactly six status updates in the
specified order ending in `SUCCEEDED`, and exactly one endpoint teardown,
which precedes the index-creation call. -/
theorem pipeline_two_categories_end_to_end :
    create_taxonomy_embeddings_index_endpoint catStubProvider "task1"
        ["cat1", "cat2"] = .ok twoCategoryTrace
      ∧ corpusWrites twoCategoryTrace
          = [[("cat1", some [rat01]), ("cat2", some [rat02])]]
      ∧ statusUpdates twoCategoryTrace
          = [.IN_PROGRESS_GETTING_EMBEDDINGS,
             .IN_PROGRESS_WRITING_EMBEDDINGS_TO_GCS,
             .IN_PROGRESS_CREATING_EMBEDDINGS_INDEX,
             .IN_PROGRESS_CREATING_EMBEDDINGS_INDEX_ENDPOINT,
             .IN_PROGRESS_DEPLOYING_EMBEDDINGS_INDEX_TO_ENDPOINT,
             .SUCCEEDED]
      ∧ twoCategoryTrace.countP (fun e => e == Event.teardownEndpoints) = 1
      ∧ twoCategoryTrace.indexOf Event.teardownEndpoints
          < twoCategoryTrace.indexOf Event.createIndex := by
  refine ⟨?_, by decide, by decide, by decide, by decide⟩
  decide

/-! ### C5: not-found cases and latest-deployment selection -/

/-- In a list sorted by creation time descending, the first element
satisfying a predicate satisfies it, belongs to the list, and has maximal
creation time among all elements satisfying the predicate. -/
theorem find_first_in_sorted_is_max (p : DeployedIndex → Bool) :
    ∀ (l : List DeployedIndex), List.Sorted createdDesc l →
      ∀ d, l.find? p = some d →
        p d = true ∧ d ∈ l ∧
          ∀ x ∈ l, p x = true → x.createTime ≤ d.createTime := by
  intro l
  induction l with
  | nil =>
    intro _ d h
    simp at h
  | cons a t ih =>
    intro hs d h
    by_cases hpa : p a = true
    · rw [List.find?_cons_of_pos _ hpa] at h
      have hda : d = a := by
        injection h with h
        exact h.symm
      subst hda
      refine ⟨hpa, List.mem_cons_self _ _, ?_⟩
      intro x hx _
      rcases List.mem_cons.mp hx with hxa | hxt
      · rw [hxa]
      · exact List.rel_of_sorted_cons hs x hxt
    · rw [List.find?_cons_of_neg _ (by simpa using hpa)] at h
      obtain ⟨hpd, hdt, hmax⟩ := ih hs.of_cons d h
      refine ⟨hpd, List.mem_cons_of_mem a hdt, ?_⟩
      intro x hx hpx
      rcases List.mem_cons.mp hx with hxa | hxt
      · exact absurd (hxa ▸ hpx) hpa
      · exact hmax x hxt hpx

/-- **C5**: `find_neighbors_for_vectors` fails exactly in the two
precondition-failure cases — no endpoint resolved, or no deployed index
resolved — both as the `NotFoundError` kind (with distinct messages); and a
deployed-index id resolved from an endpoint is the id of a deployment that
bears the expected display name and whose creation time is maximal among
all deployments bearing that name (the first match of the
creation-time-descending sort). -/
theorem find_neighbors_notfound_cases_and_latest_deployment
    (endpoint : Option Endpoint) (deployed_id : Option String)
    (matchFn : String → List Vec → Nat → List (List Neighbor))
    (vectors : List Vec) (num_neighbors : Nat) :
    (isError (find_neighbors_for_vectors endpoint deployed_id matchFn vectors
          num_neighbors) = true
        ↔ endpoint = none ∨ deployed_id = none)
      ∧ (endpoint = none →
          find_neighbors_for_vectors endpoint deployed_id matchFn vectors
              num_neighbors
            = .error (.notFoundError
                "AiPlatform Client: No index endpoint found."))
      ∧ (endpoint ≠ none → deployed_id = none →
          find_neighbors_for_vectors endpoint deployed_id matchFn vectors
              num_neighbors
            = .error (.notFoundError
                "AiPlatform Client: No index deployed at the chosen endpoint."))
      ∧ (∀ ep i, get_deployed_index_id (some ep) = some i →
          ∃ d ∈ ep.deployedIndexes, d.id = i
            ∧ d.displayName = DEPLOYED_DISPLAY_NAME
            ∧ ∀ x ∈ ep.deployedIndexes,
                x.displayName = DEPLOYED_DISPLAY_NAME →
                x.createTime ≤ d.createTime) := by
  refine ⟨?_, ?_, ?_, ?_⟩
  · cases endpoint with
    | none => simp [find_neighbors_for_vectors, isError]
    | some ep =>
      cases deployed_id with
      | none => simp [find_neighbors_for_vectors, isError]
      | some did => simp [find_neighbors_for_vectors, isError]
  · intro h
    subst h
    rfl
  · intro h1 h2
    subst h2
    cases endpoint with
    | none => exact absurd rfl h1
    | some ep => rfl
  · intro ep i h
    simp only [get_deployed_index_id] at h
    rcases hf : (ep.deployedIndexes.insertionSort createdDesc).find?
        (fun d => d.displayName == DEPLOYED_DISPLAY_NAME) with _ | d
    · rw [hf] at h
      simp at h
    · rw [hf] at h
      have hdi : d.id = i := by
        simpa using h
      obtain ⟨hpd, hdt, hmax⟩ :=
        find_first_in_sorted_is_max _ _
          (List.sorted_insertionSort createdDesc ep.deployedIndexes) d hf
      have hperm := List.perm_insertionSort createdDesc ep.deployedIndexes
      refine ⟨d, hperm.mem_iff.mp hdt, hdi, by simpa using hpd, ?_⟩
      intro x hx hxname
      exact hmax x (hperm.mem_iff.mpr hx) (by simpa using hxname)

/-- A concrete endpoint carrying two deployments with the expected display
name (created at times 20 and 50) and an unrelated one. -/
def epWitness : Endpoint :=
  { name := "e1", displayName := "embedding_index_endpoint",
    deployedIndexes :=
      [{ id := "old", displayName := "embedding_index_deployed",
         createTime := 20 },
       { id := "new", displayName := "embedding_index_deployed",
         createTime := 50 },
       { id := "other", displayName := "something_else", createTime := 99 }] }

/-- Witness for C5: on `epWitness` the resolved deployment is the most
recently created one bearing the expected display name. -/
theorem find_neighbors_notfound_cases_witness :
    ∃ d ∈ epWitness.deployedIndexes, d.id = "new"
      ∧ d.displayName = DEPLOYED_DISPLAY_NAME
      ∧ ∀ x ∈ epWitness.deployedIndexes,
          x.displayName = DEPLOYED_DISPLAY_NAME →
          x.createTime ≤ d.createTime :=
  (find_neighbors_notfound_cases_and_latest_deployment (some epWitness)
      (some "new") (fun _ _ _ => []) [] 10).2.2.2 epWitness "new" (by decide)

/-! ### C7: media-extension validation is per item, not up front -/

/-- **C7** counterexample: with `["gs://b/a.jpg", "gs://b/b.xyz"]` and a
generative model that always succeeds, the whole call does fail with the
`ValueError` for the unsupported `xyz` extension — but the valid sibling
`a.jpg` still issues exactly one generation request (the pool dispatches
every item), refuting "no generation request is issued for any item of the
list". -/
theorem generate_descriptions_invalid_sibling_still_called :
    (generate_descriptions_from_medias (fun _ _ _ => .ok "desc")
        ["gs://b/a.jpg", "gs://b/b.xyz"]).1
      = .error (.valueError "Unsupported file type: xyz")
    ∧ (generate_descriptions_from_medias (fun _ _ _ => .ok "desc")
        ["gs://b/a.jpg", "gs://b/b.xyz"]).2 = [1, 0] := by
  constructor
  · decide
  · decide

/-- An unsupported extension makes `_get_file_type_from_extension` raise the
`ValueError` naming that extension. -/
theorem get_file_type_error_msg (ext : String)
    (h : isError (get_file_type_from_extension ext) = true) :
    get_file_type_from_extension ext
      = .error (.valueError ("Unsupported file type: " ++ ext)) := by
  unfold get_file_type_from_extension at h ⊢
  by_cases h1 : SUPPORTED_IMAGE_TYPES.contains ext = true
  · rw [if_pos h1] at h
    simp [isError] at h
  · rw [if_neg h1] at h ⊢
    by_cases h2 : SUPPORTED_VIDEO_TYPES.contains ext = true
    · rw [if_pos h2] at h
      simp [isError] at h
    · rw [if_neg h2]

/-- An attempt on a path whose extension fails validation raises that error
before any generation request. -/
theorem media_attempt_invalid (gen : String → String → Nat → Except PyErr String)
    (p : String) (k : Nat) (e : PyErr)
    (hinv : get_file_type_from_extension (fileExtension p) = .error e) :
    generate_descriptions_from_media_attempt gen p k = .error e := by
  unfold generate_descriptions_from_media_attempt
  rw [hinv]
  rfl

/-- An attempt on a validated path whose generation call succeeds returns
the URI paired with the stripped response. -/
theorem media_attempt_valid_ok
    (gen : String → String → Nat → Except PyErr String) (p : String) (k : Nat)
    (f d : String)
    (hv : get_file_type_from_extension (fileExtension p) = .ok f)
    (hgen : gen p (if f = "image" then Prompt.IMAGE else Prompt.VIDEO) k
      = .ok d) :
    generate_descriptions_from_media_attempt gen p k = .ok (p, pyStrip d) := by
  unfold generate_descriptions_from_media_attempt
  rw [hv]
  show (gen p (if f = "image" then Prompt.IMAGE else Prompt.VIDEO) k
      >>= fun text => pure (p, pyStrip text)) = _
  rw [hgen]
  rfl

/-- A first attempt that succeeds ends the retry loop after one call and no
sleeps. -/
theorem tenacityRetryAux_first_ok {α : Type} (attempt : Nat → Except PyErr α)
    (a : α) (k rem : Nat) (h : attempt k = .ok a) :
    tenacityRetryAux attempt k (rem + 1) = (.ok a, 1, []) := by
  simp [tenacityRetryAux, h]

/-- A first attempt that fails with a non-retried exception (anything but
`ResourceExhausted`) ends the retry loop immediately, re-raising it. -/
theorem tenacityRetryAux_first_nonretryable {α : Type}
    (attempt : Nat → Except PyErr α) (e : PyErr) (k rem : Nat)
    (h : attempt k = .error e)
    (hnr : isResourceExhaustedErr (α := α) (.error e) = false) :
    tenacityRetryAux attempt k (rem + 1) = (.error e, 1, []) := by
  simp [tenacityRetryAux, h, hnr]

/-- Per-item behavior on a validated path whose first generation request
succeeds: one request, a success, no sleeps. -/
theorem generate_media_valid_ok
    (gen : String → String → Nat → Except PyErr String) (p : String)
    (f d : String)
    (hv : get_file_type_from_extension (fileExtension p) = .ok f)
    (hgen : gen p (if f = "image" then Prompt.IMAGE else Prompt.VIDEO) 1
      = .ok d) :
    generate_descriptions_from_media gen p = (.ok (p, pyStrip d), 1, []) := by
  have hret : tenacityRetry (generate_descriptions_from_media_attempt gen p)
      = (.ok (p, pyStrip d), 1, []) := by
    rw [tenacityRetry, show (10 : Nat) = 9 + 1 from rfl]
    exact tenacityRetryAux_first_ok _ _ 1 9
      (media_attempt_valid_ok gen p 1 f d hv hgen)
  unfold generate_descriptions_from_media
  rw [hret, hv]
  rfl

/-- Per-item behavior on a path with an unsupported extension: the
`ValueError` is raised on the only attempt and zero generation requests are
issued. -/
theorem generate_media_invalid
    (gen : String → String → Nat → Except PyErr String) (p : String)
    (m : String)
    (hinv : get_file_type_from_extension (fileExtension p)
      = .error (.valueError m)) :
    generate_descriptions_from_media gen p
      = (.error (.valueError m), 0, []) := by
  have hret : tenacityRetry (generate_descriptions_from_media_attempt gen p)
      = (.error (.valueError m), 1, []) := by
    rw [tenacityRetry, show (10 : Nat) = 9 + 1 from rfl]
    exact tenacityRetryAux_first_nonretryable _ _ 1 9
      (media_attempt_invalid gen p 1 _ hinv) rfl
  unfold generate_descriptions_from_media
  rw [hret, hinv]
  rfl

/-- With a generative model that always succeeds, iterating the pool's
results re-raises the `ValueError` of the first path failing extension
validation. -/
theorem collect_error_at_first_invalid
    (gen : String → String → Nat → Except PyErr String)
    (hgen : ∀ p pr k, ∃ d, gen p pr k = .ok d) :
    ∀ (paths : List String) (p0 : String),
      paths.find?
          (fun p => isError (get_file_type_from_extension (fileExtension p)))
        = some p0 →
      collectResults
          (paths.map (fun p => (generate_descriptions_from_media gen p).1))
        = .error (.valueError ("Unsupported file type: " ++ fileExtension p0)) := by
  intro paths
  induction paths with
  | nil =>
    intro p0 h
    simp at h
  | cons q t ih =>
    intro p0 h
    by_cases hq : isError (get_file_type_from_extension (fileExtension q))
        = true
    · rw [List.find?_cons_of_pos _ (by simpa using hq)] at h
      have hq0 : q = p0 := by
        injection h
      subst hq0
      have hmsg := get_file_type_error_msg (fileExtension q) hq
      rw [List.map_cons,
        (generate_media_invalid gen q _ hmsg ▸ rfl :
          (generate_descriptions_from_media gen q).1
            = .error (.valueError ("Unsupported file type: " ++ fileExtension q)))]
      rfl
    · rw [List.find?_cons_of_neg _ (by simpa using hq)] at h
      obtain ⟨f, hf⟩ : ∃ f,
          get_file_type_from_extension (fileExtension q) = .ok f := by
        rcases hr : get_file_type_from_extension (fileExtension q) with e | f
        · rw [hr] at hq
          simp [isError] at hq
        · exact ⟨f, rfl⟩
      obtain ⟨d, hd⟩ := hgen q (if f = "image" then Prompt.IMAGE else Prompt.VIDEO) 1
      rw [List.map_cons,
        (generate_media_valid_ok gen q f d hf hd ▸ rfl :
          (generate_descriptions_from_media gen q).1 = .ok (q, pyStrip d)),
        show collectResults (Except.ok (q, pyStrip d) ::
            t.map (fun p => (generate_descriptions_from_media gen p).1))
          = (collectResults
              (t.map (fun p => (generate_descriptions_from_media gen p).1))).map
              (fun l => (q, pyStrip d) :: l) from rfl,
        ih p0 h]
      rfl

/-- **C7 (amended)**: each URI's extension is validated inside its own
pool task, before that item's generation request; a path with an
unsupported extension makes the whole call fail with the `ValueError` of
the first such path, but the sibling items with valid extensions still
issue one generation request each — the pool dispatches every item, so the
failure is not "before any network activity". -/
theorem generate_descriptions_validation_is_per_item
    (gen : String → String → Nat → Except PyErr String)
    (media_paths : List String) (p0 : String)
    (hgen : ∀ p pr k, ∃ d, gen p pr k = .ok d)
    (hfirst : media_paths.find?
        (fun p => isError (get_file_type_from_extension (fileExtension p)))
      = some p0) :
    (generate_descriptions_from_medias gen media_paths).1
        = .error (.valueError ("Unsupported file type: " ++ fileExtension p0))
      ∧ (generate_descriptions_from_medias gen media_paths).2
          = media_paths.map (fun p =>
              if isError (get_file_type_from_extension (fileExtension p))
              then 0 else 1) := by
  constructor
  · show collectResults
        ((media_paths.map (fun p => generate_descriptions_from_media gen p)).map
          Prod.fst) = _
    rw [List.map_map]
    exact collect_error_at_first_invalid gen hgen media_paths p0 hfirst
  · show (media_paths.map (fun p => generate_descriptions_from_media gen p)).map
        (fun r => r.2.1) = _
    rw [List.map_map]
    apply List.map_congr_left
    intro p _
    by_cases hp : isError (get_file_type_from_extension (fileExtension p))
        = true
    · have hmsg := get_file_type_error_msg (fileExtension p) hp
      simp [Function.comp, generate_media_invalid gen p _ hmsg, hp]
    · obtain ⟨f, hf⟩ : ∃ f,
          get_file_type_from_extension (fileExtension p) = .ok f := by
        rcases hr : get_file_type_from_extension (fileExtension p) with e | f
        · rw [hr] at hp
          simp [isError] at hp
        · exact ⟨f, rfl⟩
      obtain ⟨d, hd⟩ := hgen p (if f = "image" then Prompt.IMAGE else Prompt.VIDEO) 1
      simp [Function.comp, generate_media_valid_ok gen p f d hf hd, hp]

/-- Witness for the amended C7 at the concrete input
`["gs://b/a.jpg", "gs://b/b.xyz"]`. -/
theorem generate_descriptions_validation_is_per_item_witness :
    (generate_descriptions_from_medias (fun _ _ _ => .ok "desc")
        ["gs://b/a.jpg", "gs://b/b.xyz"]).1
        = .error (.valueError
            ("Unsupported file type: " ++ fileExtension "gs://b/b.xyz"))
      ∧ (generate_descriptions_from_medias (fun _ _ _ => .ok "desc")
          ["gs://b/a.jpg", "gs://b/b.xyz"]).2
          = ["gs://b/a.jpg", "gs://b/b.xyz"].map (fun p =>
              if isError (get_file_type_from_extension (fileExtension p))
              then 0 else 1) :=
  generate_descriptions_validation_is_per_item (fun _ _ _ => .ok "desc")
    ["gs://b/a.jpg", "gs://b/b.xyz"] "gs://b/b.xyz"
    (fun _ _ _ => ⟨"desc", rfl⟩) (by decide)

/-! ### C8: retry policy -/

/-- When every attempt fails with `ResourceExhausted`, the loop makes all
its remaining attempts, sleeps the exponential-backoff schedule between
them, and raises a `RetryError` wrapping the last exception. -/
theorem tenacityRetryAux_all_fail {α : Type} (attempt : Nat → Except PyErr α)
    (e : String)
    (hfail : ∀ k, attempt k = .error (.resourceExhausted e)) :
    ∀ (rem k : Nat),
      tenacityRetryAux attempt k (rem + 1)
        = (.error (.retryError (.resourceExhausted e)), rem + 1,
            (List.range rem).map (fun j => tenacityWait (k + j))) := by
  intro rem
  induction rem with
  | zero =>
    intro k
    simp [tenacityRetryAux, hfail k, isResourceExhaustedErr]
  | succ r ihr =>
    intro k
    have hinner := ihr (k + 1)
    rw [tenacityRetryAux.eq_2, hfail k]
    simp only [isResourceExhaustedErr, Nat.succ_ne_zero, if_false, if_true,
      Nat.add_eq_zero, and_false, hinner]
    have hws : (tenacityWait k
          :: (List.range r).map (fun j => tenacityWait (k + 1 + j)))
        = (List.range (r + 1)).map (fun j => tenacityWait (k + j)) := by
      rw [List.range_succ_eq_map, List.map_cons, List.map_map]
      congr 1
      apply List.map_congr_left
      intro j _
      show tenacityWait (k + 1 + j) = tenacityWait (k + (j + 1))
      exact congrArg tenacityWait (by omega)
    rw [hws]

/-- A first attempt failing with `ResourceExhausted` followed by a
successful second attempt ends the loop after exactly two calls and one
backoff sleep. -/
theorem tenacityRetryAux_fail_then_ok {α : Type}
    (attempt : Nat → Except PyErr α) (e : String) (a : α) (k r : Nat)
    (h1 : attempt k = .error (.resourceExhausted e))
    (h2 : attempt (k + 1) = .ok a) :
    tenacityRetryAux attempt k (r + 1 + 1) = (.ok a, 2, [tenacityWait k]) := by
  have hinner := tenacityRetryAux_first_ok attempt a (k + 1) r h2
  rw [tenacityRetryAux.eq_2, h1]
  simp only [isResourceExhaustedErr, Nat.succ_ne_zero, if_false, if_true,
    Nat.add_eq_zero, and_false, hinner]

/-- An attempt on a validated path whose generation call raises an error
propagates exactly that error. -/
theorem media_attempt_valid_error
    (gen : String → String → Nat → Except PyErr String) (p : String) (k : Nat)
    (f : String) (e : PyErr)
    (hv : get_file_type_from_extension (fileExtension p) = .ok f)
    (hgen : gen p (if f = "image" then Prompt.IMAGE else Prompt.VIDEO) k
      = .error e) :
    generate_descriptions_from_media_attempt gen p k = .error e := by
  unfold generate_descriptions_from_media_attempt
  rw [hv]
  show (gen p (if f = "image" then Prompt.IMAGE else Prompt.VIDEO) k
      >>= fun text => pure (p, pyStrip text)) = _
  rw [hgen]
  rfl

/-- **C8** counterexample: when all 10 attempts fail with
`ResourceExhausted`, the error surfaced to the caller is a `RetryError`
*wrapping* the last `ResourceExhausted` (`reraise=False`), not the
resource-exhausted error itself. -/
theorem media_retry_exhaustion_raises_retryerror :
    (generate_descriptions_from_media
        (fun _ _ _ => .error (.resourceExhausted "quota")) "gs://b/a.jpg").1
        = .error (.retryError (.resourceExhausted "quota"))
      ∧ isResourceExhaustedErr
          (generate_descriptions_from_media
            (fun _ _ _ => .error (.resourceExhausted "quota"))
            "gs://b/a.jpg").1
        = false := by
  constructor
  · decide
  · decide

/-- **C8 (amended)**: a per-item call failing with resource exhaustion is
retried with the exponential-backoff schedule 5, 5, 8, 16, 32, 64, 70, 70,
70 (initial delay 5, multiplier 2, cap 70) for up to 10 total attempts, and
exhausting them raises a `RetryError` wrapping the last resource-exhausted
error (not that error itself); an item failing once then succeeding is
called exactly twice after a single backoff sleep; and each item's request
count is a function of that item alone, so sibling items are unaffected. -/
theorem media_retry_policy
    (gen : String → String → Nat → Except PyErr String) (p e d f : String)
    (hv : get_file_type_from_extension (fileExtension p) = .ok f) :
    ((∀ pr k, gen p pr k = .error (.resourceExhausted e)) →
        generate_descriptions_from_media gen p
          = (.error (.retryError (.resourceExhausted e)), 10,
              [5, 5, 8, 16, 32, 64, 70, 70, 70]))
      ∧ ((∀ pr, gen p pr 1 = .error (.resourceExhausted e)) →
          (∀ pr, gen p pr 2 = .ok d) →
          generate_descriptions_from_media gen p
            = (.ok (p, pyStrip d), 2, [5]))
      ∧ (∀ paths, (generate_descriptions_from_medias gen paths).2
          = paths.map (fun q => (generate_descriptions_from_media gen q).2.1)) := by
  refine ⟨?_, ?_, ?_⟩
  · intro hfail
    have hatt : ∀ k, generate_descriptions_from_media_attempt gen p k
        = .error (.resourceExhausted e) := fun k =>
      media_attempt_valid_error gen p k f _ hv (hfail _ k)
    have hret : tenacityRetry (generate_descriptions_from_media_attempt gen p)
        = (.error (.retryError (.resourceExhausted e)), 10,
            [5, 5, 8, 16, 32, 64, 70, 70, 70]) := by
      rw [tenacityRetry, show (10 : Nat) = 9 + 1 from rfl,
        tenacityRetryAux_all_fail _ e hatt 9 1,
        show (List.range 9).map (fun j => tenacityWait (1 + j))
          = [5, 5, 8, 16, 32, 64, 70, 70, 70] from by decide]
    unfold generate_descriptions_from_media
    rw [hret, hv]
    rfl
  · intro h1 h2
    have hatt1 : generate_descriptions_from_media_attempt gen p 1
        = .error (.resourceExhausted e) :=
      media_attempt_valid_error gen p 1 f _ hv (h1 _)
    have hatt2 : generate_descriptions_from_media_attempt gen p 2
        = .ok (p, pyStrip d) :=
      media_attempt_valid_ok gen p 2 f d hv (h2 _)
    have hret : tenacityRetry (generate_descriptions_from_media_attempt gen p)
        = (.ok (p, pyStrip d), 2, [tenacityWait 1]) := by
      rw [tenacityRetry, show (10 : Nat) = 8 + 1 + 1 from rfl]
      exact tenacityRetryAux_fail_then_ok _ e _ 1 8 hatt1 hatt2
    unfold generate_descriptions_from_media
    rw [hret, hv]
    show (.ok (p, pyStrip d), 2, [tenacityWait 1])
      = ((.ok (p, pyStrip d) : Except PyErr (String × String)), 2, [5])
    rw [show [tenacityWait 1] = [5] from by decide]
  · intro paths
    show (paths.map (fun q => generate_descriptions_from_media gen q)).map
        (fun r => r.2.1) = _
    rw [List.map_map]
    rfl

/-- The stub generative model of the C8 witness: resource-exhausted on the
first attempt, successful on every later one. -/
def genFailOnce : String → String → Nat → Except PyErr String :=
  fun _ _ k => if k = 1 then .error (.resourceExhausted "quota") else .ok "desc"

/-- Witness for the amended C8: with `genFailOnce` the item is called
exactly twice, sleeps once, and succeeds. -/
theorem media_retry_policy_witness :
    generate_descriptions_from_media genFailOnce "gs://b/a.jpg"
      = (.ok ("gs://b/a.jpg", pyStrip "desc"), 2, [5]) :=
  (media_retry_policy genFailOnce "gs://b/a.jpg" "quota" "desc" "image"
      (by decide)).2.1 (fun _ => rfl) (fun _ => rfl)

/-! ### C9: output order matches input order -/

/-- A successful retry outcome is the value of some successful attempt. -/
theorem tenacityRetryAux_ok_from_attempt {α : Type}
    (attempt : Nat → Except PyErr α) :
    ∀ (rem k : Nat) (a : α) (n : Nat) (ws : List Nat),
      tenacityRetryAux attempt k rem = (.ok a, n, ws) →
      ∃ j, attempt j = .ok a := by
  intro rem
  induction rem with
  | zero =>
    intro k a n ws h
    rw [tenacityRetryAux.eq_1] at h
    exact absurd (congrArg Prod.fst h) (by simp)
  | succ r ih =>
    intro k a n ws h
    rw [tenacityRetryAux.eq_2] at h
    rcases hatt : attempt k with e | b
    · rw [hatt] at h
      by_cases hre : isResourceExhaustedErr (α := α) (.error e) = true
      · simp only [hre, if_true] at h
        by_cases hr0 : r = 0
        · subst hr0
          simp only [if_true] at h
          exact absurd (congrArg Prod.fst h) (by simp)
        · simp only [hr0, if_false] at h
          have h1 : (tenacityRetryAux attempt (k + 1) r).1 = .ok a :=
            congrArg Prod.fst h
          have hx : tenacityRetryAux attempt (k + 1) r
              = ((tenacityRetryAux attempt (k + 1) r).1,
                 (tenacityRetryAux attempt (k + 1) r).2.1,
                 (tenacityRetryAux attempt (k + 1) r).2.2) := rfl
          rw [h1] at hx
          exact ih (k + 1) a _ _ hx
      · simp only [hre, if_false] at h
        exact absurd (congrArg Prod.fst h) (by simp)
    · rw [hatt] at h
      refine ⟨k, ?_⟩
      rw [hatt]
      exact congrArg Prod.fst h

/-- A successful per-item result is keyed by the item's own URI. -/
theorem generate_media_ok_fst
    (gen : String → String → Nat → Except PyErr String) (p : String)
    (r0 : String × String)
    (h : (generate_descriptions_from_media gen p).1 = .ok r0) : r0.1 = p := by
  have h1 : (tenacityRetry (generate_descriptions_from_media_attempt gen p)).1
      = .ok r0 := h
  have hx : tenacityRetry (generate_descriptions_from_media_attempt gen p)
      = (.ok r0,
         (tenacityRetry (generate_descriptions_from_media_attempt gen p)).2.1,
         (tenacityRetry (generate_descriptions_from_media_attempt gen p)).2.2) := by
    rw [← h1]
  obtain ⟨j, hj⟩ :=
    tenacityRetryAux_ok_from_attempt
      (generate_descriptions_from_media_attempt gen p) 10 1 r0 _ _ hx
  rcases hv : get_file_type_from_extension (fileExtension p) with e | f
  · rw [media_attempt_invalid gen p j e hv] at hj
    exact absurd hj (by simp)
  · rcases hg : gen p (if f = "image" then Prompt.IMAGE else Prompt.VIDEO) j
        with e | d
    · rw [media_attempt_valid_error gen p j f e hv hg] at hj
      exact absurd hj (by simp)
    · rw [media_attempt_valid_ok gen p j f d hv hg] at hj
      have heq : (p, pyStrip d) = r0 := by
        injection hj
      rw [← heq]

/-- The first projection of the fan-out/fan-in is the collection of the
per-item outcomes, in input order. -/
theorem generate_medias_fst
    (gen : String → String → Nat → Except PyErr String)
    (paths : List String) :
    (generate_descriptions_from_medias gen paths).1
      = collectResults
          (paths.map (fun p => (generate_descriptions_from_media gen p).1)) := by
  show collectResults
      ((paths.map (fun p => generate_descriptions_from_media gen p)).map
        Prod.fst) = _
  rw [List.map_map]
  rfl

/-- **C9**: for a list of media URIs whose extensions are all supported and
whose per-item calls all succeed, `generate_descriptions_from_medias`
returns the (uri, description) pairs with the URIs in exactly the input
order. -/
theorem generate_descriptions_preserves_input_order
    (gen : String → String → Nat → Except PyErr String)
    (media_paths : List String)
    (_hvalid : ∀ p ∈ media_paths,
      isError (get_file_type_from_extension (fileExtension p)) = false)
    (hok : ∀ p ∈ media_paths,
      ∃ r, (generate_descriptions_from_media gen p).1 = .ok r) :
    ∃ out, (generate_descriptions_from_medias gen media_paths).1 = .ok out
      ∧ out.map Prod.fst = media_paths := by
  induction media_paths with
  | nil => exact ⟨[], rfl, rfl⟩
  | cons q t ih =>
    obtain ⟨r0, hr0⟩ := hok q (List.mem_cons_self q t)
    obtain ⟨out, hout, hmap⟩ :=
      ih (fun p hp => _hvalid p (List.mem_cons_of_mem _ hp))
        (fun p hp => hok p (List.mem_cons_of_mem _ hp))
    rw [generate_medias_fst] at hout
    refine ⟨r0 :: out, ?_, ?_⟩
    · rw [generate_medias_fst, List.map_cons, hr0]
      show (collectResults
          (t.map (fun p => (generate_descriptions_from_media gen p).1))).map
            (fun l => r0 :: l) = _
      rw [hout]
      rfl
    · rw [List.map_cons, hmap, generate_media_ok_fst gen q r0 hr0]

/-- Witness for C9 at two concrete media URIs. -/
theorem generate_descriptions_preserves_input_order_witness :
    ∃ out, (generate_descriptions_from_medias (fun _ _ _ => .ok "d")
        ["gs://b/a.jpg", "gs://b/b.mp4"]).1 = .ok out
      ∧ out.map Prod.fst = ["gs://b/a.jpg", "gs://b/b.mp4"] :=
  generate_descriptions_preserves_input_order (fun _ _ _ => .ok "d")
    ["gs://b/a.jpg", "gs://b/b.mp4"]
    (by decide)
    (by
      intro p hp
      fin_cases hp
      · exact ⟨("gs://b/a.jpg", "d"), by decide⟩
      · exact ⟨("gs://b/b.mp4", "d"), by decide⟩)

/-! ### C10: text that looks like a media path breaks result building -/

/-- Walking the result pairs with an *empty* media-description dict: keys
that parse as media paths hit a `KeyError`; the first such key aborts the
loop with that error. -/
theorem buildClassifyResults_keyerror
    (text_embeddings : List (String × Vec)) (embeddings : Bool) :
    ∀ pairs : List (String × List Neighbor),
      (∀ q ∈ pairs, ∃ v, dictGet text_embeddings q.1 = .ok v) →
      (∃ q ∈ pairs, has_valid_extension q.1 = true) →
      ∃ t, has_valid_extension t = true
        ∧ (∃ res, (t, res) ∈ pairs)
        ∧ buildClassifyResults [] text_embeddings embeddings pairs
            = .error (.keyError t) := by
  intro pairs
  induction pairs with
  | nil =>
    intro _ hex
    simp at hex
  | cons q rest ih =>
    intro hin hex
    by_cases hv : has_valid_extension q.1 = true
    · refine ⟨q.1, hv, ⟨q.2, by simp⟩, ?_⟩
      have hd : dictGet ([] : List (String × String)) q.1
          = .error (.keyError q.1) := rfl
      simp only [buildClassifyResults, hv, hd, if_true]
      rfl
    · have hq1 : has_valid_extension q.1 = false :=
        eq_false_of_ne_true hv
      obtain ⟨t, ht, ⟨res, hres⟩, herr⟩ := ih
        (fun x hx => hin x (List.mem_cons_of_mem _ hx))
        (by
          rcases hex with ⟨x, hx, hxv⟩
          rcases List.mem_cons.mp hx with h1 | h1
          · exact absurd (h1 ▸ hxv) hv
          · exact ⟨x, h1, hxv⟩)
      obtain ⟨v, hvv⟩ := hin q (List.mem_cons_self _ _)
      refine ⟨t, ht, ⟨res, List.mem_cons_of_mem _ hres⟩, ?_⟩
      cases embeddings with
      | false =>
        simp only [buildClassifyResults, hq1, if_false, Bool.false_eq_true,
          herr]
        rfl
      | true =>
        simp only [buildClassifyResults, hq1, if_false, Bool.false_eq_true,
          if_true, hvv, herr, Except.map]
        rfl

/-- On a text-only request for a nonempty list, `classify` is exactly
embedding followed by neighbor resolution with no media descriptions. -/
theorem classify_text_only_eq
    (gen : String → String → Nat → Except PyErr String)
    (provider : List String → Except PyErr (List Vec))
    (ept : Option Endpoint) (did : Option String)
    (matchFn : String → List Vec → Nat → List (List Neighbor))
    (t0 : String) (ts : List String) (emb : Bool)
    (tE : List (String × Vec))
    (hE : get_embeddings_batch provider (some (t0 :: ts)) none = .ok tE) :
    classify gen provider ept did matchFn (some (.list (t0 :: ts))) none emb
      = find_nearest_neighbors_for_text ept did matchFn tE none emb := by
  show (get_embeddings_batch provider (some (t0 :: ts)) none >>= fun tE =>
      find_nearest_neighbors_for_text ept did matchFn tE none emb) = _
  rw [hE]
  rfl

/-- With both the endpoint and the deployed id resolved,
`_find_nearest_neighbors_for_text` with no media descriptions walks the
keys zipped against the backend's result lists over an empty description
dict. -/
theorem find_nearest_text_only_eq (ep : Endpoint) (did : String)
    (matchFn : String → List Vec → Nat → List (List Neighbor))
    (tE : List (String × Vec)) (emb : Bool) :
    find_nearest_neighbors_for_text (some ep) (some did) matchFn tE none emb
      = buildClassifyResults [] tE emb
          ((tE.map Prod.fst).zip (matchFn did (tE.map Prod.snd) 10)) := rfl

/-- **C10**: a classify call supplying only text, one of whose strings ends
in a supported media extension, fails with a `KeyError` while building
results (the string is tagged as media and looked up in the empty
description map) instead of returning a text-tagged result — assuming the
embedding provider answers one vector per text and the resolved index
answers one result list per query vector. -/
theorem classify_text_with_media_extension_fails_keyerror
    (gen : String → String → Nat → Except PyErr String)
    (provider : List String → Except PyErr (List Vec))
    (ep : Endpoint) (did : String)
    (matchFn : String → List Vec → Nat → List (List Neighbor))
    (texts : List String) (emb : Bool)
    (hp : ∀ b, ∃ vs, provider b = .ok vs ∧ vs.length = b.length)
    (hm : ∀ i v n, (matchFn i v n).length = v.length)
    (hnd : texts.Nodup)
    (hex : ∃ t ∈ texts, has_valid_extension t = true) :
    ∃ t ∈ texts, has_valid_extension t = true
      ∧ classify gen provider (some ep) (some did) matchFn
          (some (.list texts)) none emb = .error (.keyError t) := by
  obtain ⟨tx, htx, htxv⟩ := hex
  cases texts with
  | nil => simp at htx
  | cons t0 ts =>
    obtain ⟨vecs, hpb, hlen, hgeb⟩ :=
      get_embeddings_batch_ok provider (some (t0 :: ts)) none hp
    have hkv : build_input_object_for_embeddings (some (t0 :: ts)) none
        = (t0 :: ts, t0 :: ts) := by
      simp [build_input_object_for_embeddings]
    have hlen2 : vecs.length = (t0 :: ts).length := by
      rw [hlen, hkv]
    have hfst : ((t0 :: ts).zip vecs).map Prod.fst = t0 :: ts := by
      rw [map_fst_zip_eq_take, hlen2, List.take_length]
    have htE : get_embeddings_batch provider (some (t0 :: ts)) none
        = .ok ((t0 :: ts).zip vecs) := by
      rw [hgeb, hkv, pyDict_eq_self _ (by rw [hfst]; exact hnd)]
    have hclassify := classify_text_only_eq gen provider (some ep) (some did)
      matchFn t0 ts emb ((t0 :: ts).zip vecs) htE
    rw [find_nearest_text_only_eq ep did matchFn ((t0 :: ts).zip vecs) emb]
      at hclassify
    have hzlen : ((t0 :: ts).zip vecs).length = (t0 :: ts).length := by
      rw [List.length_zip, hlen2, Nat.min_self]
    have hrslen : (matchFn did (((t0 :: ts).zip vecs).map Prod.snd) 10).length
        = (t0 :: ts).length := by
      rw [hm, List.length_map, hzlen]
    have hpairsfst :
        (((t0 :: ts).zip vecs).map Prod.fst).zip
            (matchFn did (((t0 :: ts).zip vecs).map Prod.snd) 10)
          = (t0 :: ts).zip
              (matchFn did (((t0 :: ts).zip vecs).map Prod.snd) 10) := by
      rw [hfst]
    obtain ⟨t, htv, ⟨res, hres⟩, herr⟩ :=
      buildClassifyResults_keyerror ((t0 :: ts).zip vecs) emb
        ((t0 :: ts).zip (matchFn did (((t0 :: ts).zip vecs).map Prod.snd) 10))
        (by
          intro q hq
          have hq1 : q.1 ∈ t0 :: ts := (List.of_mem_zip hq).1
          exact dictGet_ok_of_mem _ q.1 (by rw [hfst]; exact hq1))
        (by
          have hmemfst : tx ∈ ((t0 :: ts).zip
              (matchFn did (((t0 :: ts).zip vecs).map Prod.snd) 10)).map
                Prod.fst := by
            rw [map_fst_zip_eq_take, hrslen, List.take_length]
            exact htx
          obtain ⟨q, hq, hq1⟩ := List.mem_map.mp hmemfst
          refine ⟨q, hq, ?_⟩
          rw [hq1]
          exact htxv)
    have htmem : t ∈ t0 :: ts := (List.of_mem_zip hres).1
    refine ⟨t, htmem, htv, ?_⟩
    rw [hclassify, hpairsfst]
    exact herr

/-- Witness for C10: classifying the single text `"notes.jpg"` (no media
argument) fails with `KeyError "notes.jpg"`. -/
theorem classify_text_with_media_extension_witness :
    ∃ t ∈ ["notes.jpg"], has_valid_extension t = true
      ∧ classify (fun _ _ _ => .ok "d") constOneProvider (some epWitness)
          (some "new") (fun _ v _ => v.map (fun _ => []))
          (some (.list ["notes.jpg"])) none false = .error (.keyError t) :=
  classify_text_with_media_extension_fails_keyerror (fun _ _ _ => .ok "d")
    constOneProvider epWitness "new" (fun _ v _ => v.map (fun _ => []))
    ["notes.jpg"] false
    (fun b => ⟨b.map (fun _ => [1]), rfl, by simp⟩)
    (fun _ v _ => by simp)
    (by decide)
    ⟨"notes.jpg", by decide, by decide⟩
